import Mathlib

/-!
Verification of the square-rs client library core: the client handle with its
sandbox/production modes, the endpoint descriptor and its URL rendering, and
the location builder with its validation step.  Definitions are shallow
embeddings of `src/client.rs`, `src/api/mod.rs` and `src/api/locations.rs`.
-/

/-- The operating mode of a client, from `ClientMode` in `src/client.rs`. -/
inductive ClientMode where
  | Production
  | Sandboxed
deriving DecidableEq, Repr

/-- `impl Default for ClientMode`: the default mode is `Sandboxed`. -/
def ClientMode.default : ClientMode := ClientMode.Sandboxed

instance : Inhabited ClientMode := ⟨ClientMode.default⟩

/-- The client handle, from `SquareClient` in `src/client.rs`: an access token
and an operating mode. -/
structure SquareClient where
  access_token : String
  client_mode : ClientMode
deriving DecidableEq, Repr

/-- `SquareClient::new`: stores the token and takes the default mode. -/
def SquareClient.new (access_token : String) : SquareClient :=
  { access_token := access_token, client_mode := ClientMode.default }

/-- `SquareClient::production`: keeps the token, sets the mode to
`Production`. -/
def SquareClient.production (c : SquareClient) : SquareClient :=
  { access_token := c.access_token, client_mode := ClientMode.Production }

/-- The endpoint descriptor, from `SquareAPI` in `src/api/mod.rs`: each
resource family carries a path suffix string. -/
inductive SquareAPI where
  | Payments (path : String)
  | Bookings (path : String)
  | Locations (path : String)
  | Catalog (path : String)
  | Customers (path : String)
  | Cards (path : String)
  | Checkout (path : String)
  | Inventory (path : String)
  | Sites (path : String)
  | Terminals (path : String)
  | Orders (path : String)
deriving DecidableEq, Repr

/-- The rendering of an endpoint descriptor to a relative path, from
`impl fmt::Display for SquareAPI` in `src/api/mod.rs`. -/
def SquareAPI.display : SquareAPI → String
  | SquareAPI.Payments path => "payments" ++ path
  | SquareAPI.Bookings path => "bookings" ++ path
  | SquareAPI.Locations path => "locations" ++ path
  | SquareAPI.Catalog path => "catalog" ++ path
  | SquareAPI.Customers path => "customers" ++ path
  | SquareAPI.Cards path => "cards" ++ path
  | SquareAPI.Checkout path => "online-checkout" ++ path
  | SquareAPI.Inventory path => "inventory" ++ path
  | SquareAPI.Sites path => "sites" ++ path
  | SquareAPI.Terminals path => "terminals" ++ path
  | SquareAPI.Orders path => "orders" ++ path

/-- The caller-supplied path suffix carried by an endpoint descriptor. -/
def SquareAPI.path : SquareAPI → String
  | SquareAPI.Payments path => path
  | SquareAPI.Bookings path => path
  | SquareAPI.Locations path => path
  | SquareAPI.Catalog path => path
  | SquareAPI.Customers path => path
  | SquareAPI.Cards path => path
  | SquareAPI.Checkout path => path
  | SquareAPI.Inventory path => path
  | SquareAPI.Sites path => path
  | SquareAPI.Terminals path => path
  | SquareAPI.Orders path => path

/-- `SQUARE_PRODUCTION_BASE` from `SquareClient::endpoint`. -/
def SQUARE_PRODUCTION_BASE : String := "https://connect.squareup.com/v2/"

/-- `SQUARE_SANDBOX_BASE` from `SquareClient::endpoint`. -/
def SQUARE_SANDBOX_BASE : String := "https://connect.squareupsandbox.com/v2/"

/-- `SquareClient::endpoint` from `src/api/mod.rs`: prefix the rendered
endpoint with the base URL selected by the client's mode. -/
def SquareClient.endpoint (c : SquareClient) (end_point : SquareAPI) : String :=
  match c.client_mode with
  | ClientMode.Production => SQUARE_PRODUCTION_BASE ++ end_point.display
  | ClientMode.Sandboxed => SQUARE_SANDBOX_BASE ++ end_point.display

/-- The base URL a client's mode selects, factored out of
`SquareClient::endpoint` for stating frame properties. -/
def clientBaseURL (c : SquareClient) : String :=
  match c.client_mode with
  | ClientMode.Production => SQUARE_PRODUCTION_BASE
  | ClientMode.Sandboxed => SQUARE_SANDBOX_BASE

/-- The fixed path prefix the spec's endpoint path table assigns to each
family, written from the spec's words (lowercase family names, with
`online-checkout` for the Checkout family), to be compared with the
source's rendering. -/
def specFamilyPrefix : SquareAPI → String
  | SquareAPI.Payments _ => "payments"
  | SquareAPI.Bookings _ => "bookings"
  | SquareAPI.Locations _ => "locations"
  | SquareAPI.Catalog _ => "catalog"
  | SquareAPI.Customers _ => "customers"
  | SquareAPI.Cards _ => "cards"
  | SquareAPI.Checkout _ => "online-checkout"
  | SquareAPI.Inventory _ => "inventory"
  | SquareAPI.Sites _ => "sites"
  | SquareAPI.Terminals _ => "terminals"
  | SquareAPI.Orders _ => "orders"

/-- C2: for every client and endpoint descriptor, the full request URL is the
base URL of the client's mode, then the family's fixed prefix from the spec's
path table, then the caller-supplied suffix; in particular the Locations
family with empty suffix renders to `<base>/v2/locations` and with suffix
`/abc123` to `<base>/v2/locations/abc123`. -/
theorem endpoint_url_is_base_prefix_suffix :
    ∀ (c : SquareClient) (e : SquareAPI),
      c.endpoint e = clientBaseURL c ++ (specFamilyPrefix e ++ e.path)
    ∧ c.endpoint (SquareAPI.Locations "") = clientBaseURL c ++ "locations"
    ∧ c.endpoint (SquareAPI.Locations "/abc123")
        = clientBaseURL c ++ "locations/abc123" := by
  intro c e
  refine ⟨?_, ?_, ?_⟩
  · cases hm : c.client_mode <;> cases e <;>
      simp [SquareClient.endpoint, clientBaseURL, SquareAPI.display,
        SquareAPI.path, specFamilyPrefix, hm, String.append_assoc]
  · cases hm : c.client_mode <;>
      simp [SquareClient.endpoint, clientBaseURL, SquareAPI.display, hm]
  · cases hm : c.client_mode <;>
      simp [SquareClient.endpoint, clientBaseURL, SquareAPI.display, hm]

/-- C3: switching a client to production mode changes only the operating
mode (hence the base URL used by subsequent dispatches): the stored access
token is unchanged, the mode becomes `Production`, and every subsequent
dispatch resolves URLs against the production base. -/
theorem production_changes_only_mode :
    ∀ (c : SquareClient),
      c.production.access_token = c.access_token
    ∧ c.production.client_mode = ClientMode.Production
    ∧ ∀ e : SquareAPI,
        c.production.endpoint e = SQUARE_PRODUCTION_BASE ++ e.display := by
  intro c
  exact ⟨rfl, rfl, fun _ => rfl⟩

/-- C8: a freshly constructed client starts in `Sandboxed` mode, so every
dispatch made before `production` resolves URLs against the sandbox base URL
`https://connect.squareupsandbox.com/v2/`. -/
theorem new_client_starts_sandboxed :
    ∀ (tok : String),
      (SquareClient.new tok).client_mode = ClientMode.Sandboxed
    ∧ ∀ e : SquareAPI,
        (SquareClient.new tok).endpoint e
          = "https://connect.squareupsandbox.com/v2/" ++ e.display := by
  intro tok
  exact ⟨rfl, fun _ => rfl⟩

/-- C10: the mode switch is idempotent: calling `production` twice yields the
same handle (same token, same mode) as calling it once. -/
theorem production_idempotent :
    ∀ (c : SquareClient), c.production.production = c.production := by
  intro c
  rfl

/-- Modelled from the spec: payload types from `crate::objects` are not under
`src/`; the spec treats resource payloads as opaque JSON contracts, so each is
modelled as an opaque carrier with a single representative field. -/
structure Address where
  address_line_1 : String := ""
deriving DecidableEq, Repr

/-- Modelled from the spec: opaque coordinates payload from `crate::objects`,
not under `src/`. -/
structure Coordinates where
  latitude : Int := 0
  longitude : Int := 0
deriving DecidableEq, Repr

/-- Modelled from the spec: opaque tax-identifier payload from
`crate::objects`, not under `src/`. -/
structure TaxIds where
  eu_vat : String := ""
deriving DecidableEq, Repr

/-- Modelled from the spec: opaque business-hours-period payload from
`crate::objects`, not under `src/`. -/
structure BusinessHoursPeriod where
  day_of_week : String := ""
deriving DecidableEq, Repr

/-- The business-hours payload: a list of periods, as used by
`Builder::add_business_hours_period` in `src/api/locations.rs`. -/
structure BusinessHours where
  periods : List BusinessHoursPeriod := []
deriving DecidableEq, Repr

/-- Modelled from the spec: opaque currency enumeration from
`crate::objects::enums`, not under `src/`. -/
inductive Currency where
  | USD
  | EUR
deriving DecidableEq, Repr

/-- Modelled from the spec: opaque location-status enumeration from
`crate::objects::enums`, not under `src/`. -/
inductive LocationStatus where
  | Active
  | Inactive
deriving DecidableEq, Repr

/-- Location-type enumeration from `crate::objects::enums`, not under `src/`;
the `Physical` variant appears in the tests of `src/api/locations.rs`. -/
inductive LocationType where
  | Physical
  | Mobile
deriving DecidableEq, Repr

/-- The location representation from `crate::objects`, with the exact field
set exhibited by the tests in `src/api/locations.rs` (lines 403-431) and the
setters of the location builder; every field is optional and defaults to
absent, matching `#[derive(Default)]`. -/
structure Location where
  id : Option String := none
  name : Option String := none
  business_email : Option String := none
  address : Option Address := none
  timezone : Option String := none
  capabilities : Option (List String) := none
  status : Option LocationStatus := none
  created_id : Option String := none
  coordinates : Option Coordinates := none
  country : Option String := none
  created_at : Option String := none
  currency : Option Currency := none
  description : Option String := none
  facebook_url : Option String := none
  full_format_logo_url : Option String := none
  logo_url : Option String := none
  instagram_username : Option String := none
  language_code : Option String := none
  mcc : Option String := none
  merchant_id : Option String := none
  phone_number : Option String := none
  pos_background_url : Option String := none
  tax_ids : Option TaxIds := none
  twitter_username : Option String := none
  type_name : Option LocationType := none
  business_hours : Option BusinessHours := none
  business_name : Option String := none
  website_url : Option String := none
deriving DecidableEq, Repr

/-- The request-body wrapper around a location, from `LocationCreationWrapper`
in `src/api/locations.rs`; `default` wraps the default (all-absent)
location. -/
structure LocationCreationWrapper where
  location : Location := {}
deriving DecidableEq, Repr

/-- Modelled from the spec: the validation error from `crate::errors`, not
under `src/`; validation failures carry no further detail than "invalid", so
the error is a detail-free unit value. -/
structure ValidationError where
deriving DecidableEq, Repr

/-- The `Validate` capability from `crate::builder`, as used by
`impl Validate for LocationCreationWrapper` in `src/api/locations.rs`. -/
class Validate (α : Type) where
  validate : α → Except ValidationError α

/-- `LocationCreationWrapper::validate` from `src/api/locations.rs`: succeed
exactly when the wrapped location's name is present. -/
def LocationCreationWrapper.validate (w : LocationCreationWrapper) :
    Except ValidationError LocationCreationWrapper :=
  if w.location.name.isSome then Except.ok w else Except.error ValidationError.mk

instance : Validate LocationCreationWrapper :=
  ⟨LocationCreationWrapper.validate⟩

/-- Modelled from the spec: the generic builder core (`crate::builder`) is not
under `src/`; per the spec a builder is an accumulator wrapping a
partially-filled resource representation (the phantom parent linkage is not
exercised in this core and is omitted). -/
structure Builder (β : Type) where
  body : β
deriving DecidableEq, Repr

/-- Modelled from the spec: `Builder::from` wraps a starting representation
into a builder. -/
def Builder.ofBody {β : Type} (body : β) : Builder β :=
  { body := body }

/-- Modelled from the spec: the finalizing operation `Builder::build` consumes
the builder and applies the resource's validation predicate, yielding either
the validated representation or a validation failure; no I/O occurs. -/
def Builder.build {β : Type} [Validate β] (b : Builder β) :
    Except ValidationError β :=
  Validate.validate b.body

/-- `Builder::<LocationCreationWrapper, T>::name` from `src/api/locations.rs`. -/
def Builder.name (b : Builder LocationCreationWrapper) (name : String) :
    Builder LocationCreationWrapper :=
  { b with body.location.name := some name }

/-- `Builder::address` from `src/api/locations.rs`. -/
def Builder.address (b : Builder LocationCreationWrapper) (address : Address) :
    Builder LocationCreationWrapper :=
  { b with body.location.address := some address }

/-- `Builder::business_email` from `src/api/locations.rs`. -/
def Builder.business_email (b : Builder LocationCreationWrapper)
    (business_email : String) : Builder LocationCreationWrapper :=
  { b with body.location.business_email := some business_email }

/-- `Builder::add_business_hours_period` from `src/api/locations.rs`: push a
single period onto the existing ones, initializing the collection when the
field is absent. -/
def Builder.add_business_hours_period (b : Builder LocationCreationWrapper)
    (business_hours_period : BusinessHoursPeriod) :
    Builder LocationCreationWrapper :=
  match b.body.location.business_hours with
  | some business_hours =>
      let updated : BusinessHours :=
        { business_hours with
            periods := business_hours.periods ++ [business_hours_period] }
      { b with body.location.business_hours := some updated }
  | none =>
      let initial : BusinessHours := { periods := [business_hours_period] }
      { b with body.location.business_hours := some initial }

/-- `Builder::business_hours` from `src/api/locations.rs`: replace the whole
business-hours object. -/
def Builder.business_hours (b : Builder LocationCreationWrapper)
    (business_hours : BusinessHours) : Builder LocationCreationWrapper :=
  { b with body.location.business_hours := some business_hours }

/-- `Builder::business_name` from `src/api/locations.rs`. -/
def Builder.business_name (b : Builder LocationCreationWrapper)
    (business_name : String) : Builder LocationCreationWrapper :=
  { b with body.location.business_name := some business_name }

/-- `Builder::add_capability` from `src/api/locations.rs`: push one capability
onto the existing ones, initializing the collection when the field is
absent. -/
def Builder.add_capability (b : Builder LocationCreationWrapper)
    (capability : String) : Builder LocationCreationWrapper :=
  match b.body.location.capabilities with
  | some capabilities =>
      { b with body.location.capabilities := some (capabilities ++ [capability]) }
  | none =>
      { b with body.location.capabilities := some [capability] }

/-- `Builder::capabilities` from `src/api/locations.rs`: overwrite all
capabilities already held by the location. -/
def Builder.capabilities (b : Builder LocationCreationWrapper)
    (capabilities : List String) : Builder LocationCreationWrapper :=
  { b with body.location.capabilities := some capabilities }

/-- `Builder::coordinates` from `src/api/locations.rs`. -/
def Builder.coordinates (b : Builder LocationCreationWrapper)
    (coordinates : Coordinates) : Builder LocationCreationWrapper :=
  { b with body.location.coordinates := some coordinates }

/-- `Builder::country` from `src/api/locations.rs`. -/
def Builder.country (b : Builder LocationCreationWrapper) (country : String) :
    Builder LocationCreationWrapper :=
  { b with body.location.country := some country }

/-- `Builder::currency` from `src/api/locations.rs`. -/
def Builder.currency (b : Builder LocationCreationWrapper)
    (currency : Currency) : Builder LocationCreationWrapper :=
  { b with body.location.currency := some currency }

/-- `Builder::description` from `src/api/locations.rs`. -/
def Builder.description (b : Builder LocationCreationWrapper)
    (description : String) : Builder LocationCreationWrapper :=
  { b with body.location.description := some description }

/-- `Builder::facebook_url` from `src/api/locations.rs`. -/
def Builder.facebook_url (b : Builder LocationCreationWrapper)
    (facebook_url : String) : Builder LocationCreationWrapper :=
  { b with body.location.facebook_url := some facebook_url }

/-- `Builder::full_format_logo_url` from `src/api/locations.rs`. -/
def Builder.full_format_logo_url (b : Builder LocationCreationWrapper)
    (full_format_logo_url : String) : Builder LocationCreationWrapper :=
  { b with body.location.full_format_logo_url := some full_format_logo_url }

/-- `Builder::instagram_username` from `src/api/locations.rs`. -/
def Builder.instagram_username (b : Builder LocationCreationWrapper)
    (instagram_username : String) : Builder LocationCreationWrapper :=
  { b with body.location.instagram_username := some instagram_username }

/-- `Builder::language_code` from `src/api/locations.rs`. -/
def Builder.language_code (b : Builder LocationCreationWrapper)
    (language_code : String) : Builder LocationCreationWrapper :=
  { b with body.location.language_code := some language_code }

/-- `Builder::logo_url` from `src/api/locations.rs`. -/
def Builder.logo_url (b : Builder LocationCreationWrapper)
    (logo_url : String) : Builder LocationCreationWrapper :=
  { b with body.location.logo_url := some logo_url }

/-- `Builder::mcc` from `src/api/locations.rs`. -/
def Builder.mcc (b : Builder LocationCreationWrapper) (mcc : String) :
    Builder LocationCreationWrapper :=
  { b with body.location.mcc := some mcc }

/-- `Builder::merchant_id` from `src/api/locations.rs`. -/
def Builder.merchant_id (b : Builder LocationCreationWrapper)
    (merchant_id : String) : Builder LocationCreationWrapper :=
  { b with body.location.merchant_id := some merchant_id }

/-- `Builder::phone_number` from `src/api/locations.rs`. -/
def Builder.phone_number (b : Builder LocationCreationWrapper)
    (phone_number : String) : Builder LocationCreationWrapper :=
  { b with body.location.phone_number := some phone_number }

/-- `Builder::pos_background_url` from `src/api/locations.rs`. -/
def Builder.pos_background_url (b : Builder LocationCreationWrapper)
    (pos_background_url : String) : Builder LocationCreationWrapper :=
  { b with body.location.pos_background_url := some pos_background_url }

/-- `Builder::status` from `src/api/locations.rs`. -/
def Builder.status (b : Builder LocationCreationWrapper)
    (status : LocationStatus) : Builder LocationCreationWrapper :=
  { b with body.location.status := some status }

/-- `Builder::tax_ids` from `src/api/locations.rs`. -/
def Builder.tax_ids (b : Builder LocationCreationWrapper) (tax_ids : TaxIds) :
    Builder LocationCreationWrapper :=
  { b with body.location.tax_ids := some tax_ids }

/-- `Builder::timezone` from `src/api/locations.rs`. -/
def Builder.timezone (b : Builder LocationCreationWrapper) (timezone : String) :
    Builder LocationCreationWrapper :=
  { b with body.location.timezone := some timezone }

/-- `Builder::twitter_username` from `src/api/locations.rs`. -/
def Builder.twitter_username (b : Builder LocationCreationWrapper)
    (twitter_username : String) : Builder LocationCreationWrapper :=
  { b with body.location.twitter_username := some twitter_username }

/-- `Builder::location_type` from `src/api/locations.rs`: sets the `type_name`
field. -/
def Builder.location_type (b : Builder LocationCreationWrapper)
    (location_type : LocationType) : Builder LocationCreationWrapper :=
  { b with body.location.type_name := some location_type }

/-- `Builder::website_url` from `src/api/locations.rs`. -/
def Builder.website_url (b : Builder LocationCreationWrapper)
    (website_url : String) : Builder LocationCreationWrapper :=
  { b with body.location.website_url := some website_url }

/-- The periods held by an optional business-hours field (empty when the
field is absent), an observation used to state the append property. -/
def periodsOf : Option BusinessHours → List BusinessHoursPeriod
  | some business_hours => business_hours.periods
  | none => []

/-- The capabilities held by an optional capabilities field (empty when the
field is absent), an observation used to state the append property. -/
def capsOf : Option (List String) → List String
  | some capabilities => capabilities
  | none => []

/-- C1: finalizing a location builder whose name was never set fails with the
validation error; the finalizer returns the error instead of a validated
wrapper, so no request body ever reaches the dispatcher. -/
theorem build_without_name_fails :
    ∀ (b : Builder LocationCreationWrapper),
      b.body.location.name = none →
      b.build = Except.error ValidationError.mk := by
  intro b h
  simp [Builder.build, Validate.validate, LocationCreationWrapper.validate, h]

/-- Witness for C1: the builder with only `facebook_url` set (no name) fails
to finalize. -/
theorem build_without_name_fails_witness :
    ((Builder.ofBody {} : Builder LocationCreationWrapper).facebook_url
        "some_url").build = Except.error ValidationError.mk :=
  build_without_name_fails _ rfl

/-- C4: finalizing a location builder whose name is set succeeds and returns
exactly the accumulated representation; in particular a chain of setters from
the default builder yields exactly the fields set by those setters, all other
fields absent. -/
theorem build_with_name_roundtrips :
    (∀ (b : Builder LocationCreationWrapper),
        (b.body.location.name).isSome = true → b.build = Except.ok b.body)
    ∧ ∀ (n u : String) (t : LocationType),
        ((((Builder.ofBody {}).name n).facebook_url u).location_type t).build
          = Except.ok
              { location :=
                  { name := some n, facebook_url := some u,
                    type_name := some t } } := by
  constructor
  · intro b h
    simp [Builder.build, Validate.validate, LocationCreationWrapper.validate, h]
  · intro n u t
    rfl

/-- Witness for C4: building with only `name = "The Foo Bar"` set succeeds
and round-trips the accumulated body. -/
theorem build_with_name_roundtrips_witness :
    ((Builder.ofBody {} : Builder LocationCreationWrapper).name
        "The Foo Bar").build
      = Except.ok
          ((Builder.ofBody {} : Builder LocationCreationWrapper).name
              "The Foo Bar").body :=
  build_with_name_roundtrips.1 _ rfl

/-- Counterexample for C5: a representation whose name is set to the empty
string passes validation (the finalizer succeeds), so the finalizer does not
require a non-empty name. -/
theorem empty_name_validates_ok :
    ((Builder.ofBody {} : Builder LocationCreationWrapper).name "").build
      = Except.ok { location := { name := some "" } } := rfl

/-- C5 (amended): the finalizer requires only that the name field be present:
any builder whose name is set (even to the empty string) validates
successfully, one whose name is absent fails, and a validation failure
carries no further detail than the single "invalid" error kind (the error
type has exactly one value). -/
theorem validate_requires_present_name :
    (∀ (b : Builder LocationCreationWrapper),
        (b.body.location.name).isSome = true → b.build = Except.ok b.body)
    ∧ (∀ (b : Builder LocationCreationWrapper),
        b.body.location.name = none →
        b.build = Except.error ValidationError.mk)
    ∧ ∀ (e₁ e₂ : ValidationError), e₁ = e₂ := by
  refine ⟨?_, ?_, fun _ _ => rfl⟩ <;>
    intro b h <;>
    simp [Builder.build, Validate.validate, LocationCreationWrapper.validate, h]

/-- Witness for C5 (amended): the empty-string name passes validation and the
builder with name unset fails. -/
theorem validate_requires_present_name_witness :
    ((Builder.ofBody {} : Builder LocationCreationWrapper).name "").build
        = Except.ok
            ((Builder.ofBody {} : Builder LocationCreationWrapper).name
                "").body
    ∧ (Builder.ofBody {} : Builder LocationCreationWrapper).build
        = Except.error ValidationError.mk :=
  ⟨validate_requires_present_name.1 _ rfl,
   validate_requires_present_name.2.1 _ rfl⟩

/-- C6: the appending setters preserve previously added elements and keep
call order: appending twice yields the previous elements followed by the two
new ones in order, and appending to an absent field initializes a
single-element collection. -/
theorem append_setters_preserve_and_init :
    (∀ (b : Builder LocationCreationWrapper) (p₁ p₂ : BusinessHoursPeriod),
        ((b.add_business_hours_period p₁).add_business_hours_period
            p₂).body.location.business_hours
          = some { periods := periodsOf b.body.location.business_hours
                                ++ [p₁, p₂] })
    ∧ (∀ (b : Builder LocationCreationWrapper) (p : BusinessHoursPeriod),
        b.body.location.business_hours = none →
        (b.add_business_hours_period p).body.location.business_hours
          = some { periods := [p] })
    ∧ (∀ (b : Builder LocationCreationWrapper) (c₁ c₂ : String),
        ((b.add_capability c₁).add_capability c₂).body.location.capabilities
          = some (capsOf b.body.location.capabilities ++ [c₁, c₂]))
    ∧ ∀ (b : Builder LocationCreationWrapper) (c : String),
        b.body.location.capabilities = none →
        (b.add_capability c).body.location.capabilities = some [c] := by
  refine ⟨?_, ?_, ?_, ?_⟩
  · intro b p₁ p₂
    cases h : b.body.location.business_hours <;>
      simp [Builder.add_business_hours_period, h, periodsOf]
  · intro b p h
    simp [Builder.add_business_hours_period, h]
  · intro b c₁ c₂
    cases h : b.body.location.capabilities <;>
      simp [Builder.add_capability, h, capsOf]
  · intro b c h
    simp [Builder.add_capability, h]

/-- Witness for C6: appending one period (resp. one capability) to the
default builder, whose collections are absent, initializes singleton
collections. -/
theorem append_setters_preserve_and_init_witness :
    ((Builder.ofBody {} :
        Builder LocationCreationWrapper).add_business_hours_period
          { day_of_week := "MON" }).body.location.business_hours
      = some { periods := [{ day_of_week := "MON" }] }
    ∧ ((Builder.ofBody {} : Builder LocationCreationWrapper).add_capability
          "CREDIT_CARD_PROCESSING").body.location.capabilities
      = some ["CREDIT_CARD_PROCESSING"] :=
  ⟨append_setters_preserve_and_init.2.1 _ _ rfl,
   append_setters_preserve_and_init.2.2.2 _ _ rfl⟩

/-- C9: the bulk setter `capabilities` sets the field to exactly the given
list, discarding anything previously accumulated by `add_capability`. -/
theorem capabilities_setter_overwrites :
    ∀ (b : Builder LocationCreationWrapper) (v : List String),
      (b.capabilities v).body.location.capabilities = some v
    ∧ ∀ (c : String), (b.add_capability c).capabilities v = b.capabilities v := by
  intro b v
  constructor
  · rfl
  · intro c
    cases h : b.body.location.capabilities <;>
      simp [Builder.add_capability, Builder.capabilities, h]

/-- The location fields touched by the builder's setters, used to say when
two setter calls are independent (touch distinct fields). -/
inductive LocField where
  | name
  | address
  | business_email
  | business_hours
  | business_name
  | capabilities
  | coordinates
  | country
  | currency
  | description
  | facebook_url
  | full_format_logo_url
  | instagram_username
  | language_code
  | logo_url
  | mcc
  | merchant_id
  | phone_number
  | pos_background_url
  | status
  | tax_ids
  | timezone
  | twitter_username
  | type_name
  | website_url
deriving DecidableEq, Repr

/-- One call to a setter of the location builder, carrying its argument; one
constructor per setter of `impl Builder<LocationCreationWrapper, T>` in
`src/api/locations.rs`. -/
inductive SetterCall where
  | name (v : String)
  | address (v : Address)
  | business_email (v : String)
  | add_business_hours_period (v : BusinessHoursPeriod)
  | business_hours (v : BusinessHours)
  | business_name (v : String)
  | add_capability (v : String)
  | capabilities (v : List String)
  | coordinates (v : Coordinates)
  | country (v : String)
  | currency (v : Currency)
  | description (v : String)
  | facebook_url (v : String)
  | full_format_logo_url (v : String)
  | instagram_username (v : String)
  | language_code (v : String)
  | logo_url (v : String)
  | mcc (v : String)
  | merchant_id (v : String)
  | phone_number (v : String)
  | pos_background_url (v : String)
  | status (v : LocationStatus)
  | tax_ids (v : TaxIds)
  | timezone (v : String)
  | twitter_username (v : String)
  | location_type (v : LocationType)
  | website_url (v : String)
deriving DecidableEq, Repr

/-- Apply a setter call to a builder: each constructor delegates to the
corresponding setter method. -/
def applySetter : SetterCall → Builder LocationCreationWrapper →
    Builder LocationCreationWrapper
  | SetterCall.name v, b => b.name v
  | SetterCall.address v, b => b.address v
  | SetterCall.business_email v, b => b.business_email v
  | SetterCall.add_business_hours_period v, b => b.add_business_hours_period v
  | SetterCall.business_hours v, b => b.business_hours v
  | SetterCall.business_name v, b => b.business_name v
  | SetterCall.add_capability v, b => b.add_capability v
  | SetterCall.capabilities v, b => b.capabilities v
  | SetterCall.coordinates v, b => b.coordinates v
  | SetterCall.country v, b => b.country v
  | SetterCall.currency v, b => b.currency v
  | SetterCall.description v, b => b.description v
  | SetterCall.facebook_url v, b => b.facebook_url v
  | SetterCall.full_format_logo_url v, b => b.full_format_logo_url v
  | SetterCall.instagram_username v, b => b.instagram_username v
  | SetterCall.language_code v, b => b.language_code v
  | SetterCall.logo_url v, b => b.logo_url v
  | SetterCall.mcc v, b => b.mcc v
  | SetterCall.merchant_id v, b => b.merchant_id v
  | SetterCall.phone_number v, b => b.phone_number v
  | SetterCall.pos_background_url v, b => b.pos_background_url v
  | SetterCall.status v, b => b.status v
  | SetterCall.tax_ids v, b => b.tax_ids v
  | SetterCall.timezone v, b => b.timezone v
  | SetterCall.twitter_username v, b => b.twitter_username v
  | SetterCall.location_type v, b => b.location_type v
  | SetterCall.website_url v, b => b.website_url v

/-- The location field a setter call touches (`location_type` writes the
`type_name` field; the two appending setters write their collection
fields). -/
def setterField : SetterCall → LocField
  | SetterCall.name _ => LocField.name
  | SetterCall.address _ => LocField.address
  | SetterCall.business_email _ => LocField.business_email
  | SetterCall.add_business_hours_period _ => LocField.business_hours
  | SetterCall.business_hours _ => LocField.business_hours
  | SetterCall.business_name _ => LocField.business_name
  | SetterCall.add_capability _ => LocField.capabilities
  | SetterCall.capabilities _ => LocField.capabilities
  | SetterCall.coordinates _ => LocField.coordinates
  | SetterCall.country _ => LocField.country
  | SetterCall.currency _ => LocField.currency
  | SetterCall.description _ => LocField.description
  | SetterCall.facebook_url _ => LocField.facebook_url
  | SetterCall.full_format_logo_url _ => LocField.full_format_logo_url
  | SetterCall.instagram_username _ => LocField.instagram_username
  | SetterCall.language_code _ => LocField.language_code
  | SetterCall.logo_url _ => LocField.logo_url
  | SetterCall.mcc _ => LocField.mcc
  | SetterCall.merchant_id _ => LocField.merchant_id
  | SetterCall.phone_number _ => LocField.phone_number
  | SetterCall.pos_background_url _ => LocField.pos_background_url
  | SetterCall.status _ => LocField.status
  | SetterCall.tax_ids _ => LocField.tax_ids
  | SetterCall.timezone _ => LocField.timezone
  | SetterCall.twitter_username _ => LocField.twitter_username
  | SetterCall.location_type _ => LocField.type_name
  | SetterCall.website_url _ => LocField.website_url

set_option maxHeartbeats 2000000 in
/-- C7: setter calls on distinct location fields commute: applying any two
independent setter calls in either order yields the same builder, and hence
finalizing afterwards yields the same representation. -/
theorem independent_setters_commute :
    ∀ (s₁ s₂ : SetterCall) (b : Builder LocationCreationWrapper),
      setterField s₁ ≠ setterField s₂ →
      applySetter s₂ (applySetter s₁ b) = applySetter s₁ (applySetter s₂ b)
      ∧ (applySetter s₂ (applySetter s₁ b)).build
          = (applySetter s₁ (applySetter s₂ b)).build := by
  intro s₁ s₂ b h
  have key : applySetter s₂ (applySetter s₁ b)
      = applySetter s₁ (applySetter s₂ b) := by
    obtain ⟨⟨⟨fid, fname, fbe, fad, ftz, fcp, fst, fci, fco, fcn, fca, fcu,
      fde, ffb, fff, flo, fig, flc, fmc, fmi, fpn, fpb, fti, ftw, ftn, fbh,
      fbn, fwu⟩⟩⟩ := b
    cases s₁ <;> cases s₂ <;>
      first
        | exact absurd rfl h
        | rfl
        | (cases fbh <;> rfl)
        | (cases fcp <;> rfl)
        | (cases fbh <;> cases fcp <;> rfl)
  exact ⟨key, by rw [key]⟩

/-- Witness for C7: the `name` and `facebook_url` setters commute on the
default builder. -/
theorem independent_setters_commute_witness :
    applySetter (SetterCall.facebook_url "some_url")
        (applySetter (SetterCall.name "The Foo Bar") (Builder.ofBody {}))
      = applySetter (SetterCall.name "The Foo Bar")
          (applySetter (SetterCall.facebook_url "some_url")
            (Builder.ofBody {}))
    ∧ (applySetter (SetterCall.facebook_url "some_url")
          (applySetter (SetterCall.name "The Foo Bar")
            (Builder.ofBody {}))).build
      = (applySetter (SetterCall.name "The Foo Bar")
          (applySetter (SetterCall.facebook_url "some_url")
            (Builder.ofBody {}))).build :=
  independent_setters_commute (SetterCall.name "The Foo Bar")
    (SetterCall.facebook_url "some_url") (Builder.ofBody {}) (by decide)
